import Mathlib

/-!
Verification of the my_turn reverse-tunnel client (`src/client.py`) against its
natural-language specification.  The protocol state and the pure parts of the
code are embedded shallowly: byte buffers are `List Nat`, per-session mutable
state becomes explicit state records, Python exceptions become `Except Unit`,
and the asynchronous read loop is modelled one `_process(chunk)` call at a time.
-/

/-- Modelled from the spec: the wire header of `message.py`, which is absent from
`src/` (only `client.py` is present).  Per §6 the frame starts with a one-byte
sync sentinel, then the command ordinal, a 2-byte big-endian sequence and the
payload length; we fix the implementation choices the spec leaves open as
1-byte command, 2-byte big-endian `payload_length`, so `Head.size() = 6`. -/
structure Head where
  command : Nat
  sequence : Nat
  payload_len : Nat
  deriving DecidableEq, Repr

/-- Modelled from the spec: the fixed sentinel value `msg.Head.SYNC_BYTE`
(its concrete value is an implementation choice left open by §6). -/
def Head.SYNC_BYTE : Nat := 170

/-- Modelled from the spec: `msg.Head.size()`, the fixed header size
(1 sync + 1 command + 2 sequence + 2 payload_length bytes). -/
def Head.size : Nat := 6

/-- Modelled from the spec: `msg.Head.read(buf)` unpacks the header fields from
the first `Head.size` bytes of the buffer (big-endian multi-byte fields).
`client.py` only calls it after checking `len(buf) >= Head.size()`. -/
def Head.read (buf : List Nat) : Head :=
  match buf with
  | _ :: b1 :: b2 :: b3 :: b4 :: b5 :: _ =>
    { command := b1, sequence := b2 * 256 + b3, payload_len := b4 * 256 + b5 }
  | _ => { command := 0, sequence := 0, payload_len := 0 }

/-- Modelled from the spec: `msg.Head.write()` packs the sentinel and the header
fields in the same fixed byte order that `Head.read` unpacks. -/
def Head.write (h : Head) : List Nat :=
  [Head.SYNC_BYTE, h.command % 256,
   h.sequence / 256 % 256, h.sequence % 256,
   h.payload_len / 256 % 256, h.payload_len % 256]

/-- One decoded frame event: the header and the payload slice that
`_process` hands to the command dispatcher. -/
abbrev FrameEvent := Head × List Nat

/-- Fuel-indexed embedding of the `while True` framing loop shared by
`MyTurnClient._process` and `BaseDataClient._process` (client.py:275-295 and
116-140): stop when fewer than `Head.size` bytes remain; drop one leading
non-sentinel byte and continue (resync); otherwise read the header and — as
written in the source — stop when `head.payload_len + Head.size() < len(buf)`;
otherwise slice the payload, emit the frame for dispatch and delete
`payload_len + Head.size` bytes.  Each iteration removes at least one byte, so
`buf.length` fuel is always enough. -/
def processFramesAux : Nat → List Nat → List FrameEvent × List Nat
  | 0, buf => ([], buf)
  | fuel + 1, buf =>
    if buf.length < Head.size then ([], buf)
    else if buf.headI ≠ Head.SYNC_BYTE then processFramesAux fuel buf.tail
    else
      let hd := Head.read buf
      if hd.payload_len + Head.size < buf.length then ([], buf)
      else
        let payload := (buf.drop Head.size).take hd.payload_len
        let rest := buf.drop (hd.payload_len + Head.size)
        let r := processFramesAux fuel rest
        ((hd, payload) :: r.1, r.2)

/-- The framing loop of `_process` run to completion on a buffer: the list of
frames handed to dispatch, in order, and the bytes left in the buffer. -/
def processFrames (buf : List Nat) : List FrameEvent × List Nat :=
  processFramesAux buf.length buf

/-- C1: the spec says the decoder must signal "need more data" exactly when
`header_size + payload_length` exceeds the buffered length, and decode one
frame (discarding exactly its bytes) as soon as the buffer holds it, even with
trailing bytes.  The source comparison at client.py:283 (`head.payload_len +
msg.Head.size() < len(buf)`) is inverted: (i) a complete 6-byte frame followed
by one stray byte decodes to no frame at all and leaves the buffer untouched,
and (ii) a bare 6-byte header announcing a 2-byte payload — an incomplete
prefix — is decoded as a frame with a truncated (empty) payload and the whole
buffer is discarded. -/
theorem c1_decoder_comparison_inverted :
    processFrames (Head.write ⟨2, 1, 0⟩ ++ [255]) =
      ([], Head.write ⟨2, 1, 0⟩ ++ [255]) ∧
    processFrames (Head.write ⟨2, 1, 2⟩) = ([(⟨2, 1, 2⟩, [])], []) := by
  decide

/-- Modelled from the spec: the `msg.Command` enumeration (§3); `message.py` is
absent from `src/`.  Member names follow the source's `getattr` targets in
`client.py` (`process_AllocationAck`, `process_ConnectionAttamp`, ...). -/
inductive Command where
  | Allocation
  | AllocationAck
  | ConnectionBind
  | ConnectionBindAck
  | ConnectionAttamp
  deriving DecidableEq, Repr

/-- Modelled from the spec: `msg.Command(n)` — look the wire ordinal up in the
closed enumeration; an unknown ordinal raises `ValueError` in Python, here
`none`.  The concrete ordinals are an implementation choice left open. -/
def Command.ofNat? (n : Nat) : Option Command :=
  match n with
  | 1 => some .Allocation
  | 2 => some .AllocationAck
  | 3 => some .ConnectionBind
  | 4 => some .ConnectionBindAck
  | 5 => some .ConnectionAttamp
  | _ => none

/-- The result of `json.loads` on a command payload, restricted to the keys the
handlers in `client.py` read.  A field is `none` when the key is absent;
`payload['k']` on an absent key raises `KeyError`, `payload.get('k')` yields
`None`.  Strings are byte lists. -/
structure JObj where
  code : Option Int
  relay_address : Option (List Nat)
  connection_id : Option (List Nat)
  data_address : Option (List Nat)
  deriving DecidableEq, Repr

/-- The mutable state of `MyTurnClient` that its frame path touches:
`_is_allocated` and `_buf` are set in `connected()` (client.py:256-264),
`_is_closing` comes from `BaseTcpClient.__init__`, and `_data_clients` is the
connection-id-keyed session map (kept here as the list of registered ids). -/
structure CtrlState where
  is_allocated : Bool
  is_closing : Bool
  buf : List Nat
  data_clients : List (List Nat)
  deriving DecidableEq, Repr

/-- `MyTurnClient.process_AllocationAck` (client.py:305-312): `json.loads`
failure, a missing `code` key, a non-200 code (`raise RuntimeError`), or a
missing `relay_address` key all raise; only a well-formed success ack sets
`_is_allocated = True`.  The handler itself closes nothing and sends nothing. -/
def MyTurnClient.process_AllocationAck (j : Option JObj) (s : CtrlState) :
    Except Unit CtrlState :=
  match j with
  | none => .error ()
  | some o =>
    match o.code with
    | none => .error ()
    | some c =>
      if c ≠ 200 then .error ()
      else
        match o.relay_address with
        | none => .error ()
        | some _ => .ok { s with is_allocated := true }

/-- `MyTurnClient.process_ConnectionAttamp` (client.py:314-333): a `json.loads`
failure raises; a missing `connection_id` or `data_address` raises
`RuntimeError`.  Otherwise the address is split; if the split/int() fails the
inner `except` swallows it but the registration line then references the
unbound `dc` and raises `NameError`; on success the new data client is
registered under its connection id. -/
def MyTurnClient.process_ConnectionAttamp (splitAddr : List Nat → Option (List Nat × Nat))
    (j : Option JObj) (s : CtrlState) : Except Unit CtrlState :=
  match j with
  | none => .error ()
  | some o =>
    match o.connection_id, o.data_address with
    | some cid, some da =>
      match splitAddr da with
      | some _ => .ok { s with data_clients := s.data_clients ++ [cid] }
      | none => .error ()
    | _, _ => .error ()

/-- The per-frame dispatch of `MyTurnClient._process` (client.py:288-293):
`msg.Command(head.command)` then `getattr(self, 'process_<name>')`; an unknown
ordinal, a command the class has no handler for, or any exception the handler
raises is swallowed by the bare `except: pass`, leaving the state unchanged.
No Python state is mutated before any of the raise points, so catching with
the pre-dispatch state is exact. -/
def MyTurnClient.dispatch (parse : List Nat → Option JObj)
    (splitAddr : List Nat → Option (List Nat × Nat))
    (s : CtrlState) (f : FrameEvent) : CtrlState :=
  let r : Except Unit CtrlState :=
    match Command.ofNat? f.1.command with
    | some Command.AllocationAck => MyTurnClient.process_AllocationAck (parse f.2) s
    | some Command.ConnectionAttamp =>
        MyTurnClient.process_ConnectionAttamp splitAddr (parse f.2) s
    | _ => .error ()
  match r with
  | .ok s2 => s2
  | .error _ => s

/-- `MyTurnClient._process(buf)` (client.py:271-295): extend `_buf` with the
chunk, run the framing loop, dispatch each decoded frame in order, and keep the
undecoded remainder in `_buf`.  `json.loads` and the `host:port` split are the
Python standard library (external per spec §1) and enter as parameters. -/
def MyTurnClient.process (parse : List Nat → Option JObj)
    (splitAddr : List Nat → Option (List Nat × Nat))
    (s : CtrlState) (chunk : List Nat) : CtrlState :=
  let r := processFrames (s.buf ++ chunk)
  let s2 := r.1.foldl (MyTurnClient.dispatch parse splitAddr) s
  { s2 with buf := r.2 }

/-- `json.loads` stub returning a fixed parse result, for concrete scenarios. -/
def parseConst (j : Option JObj) : List Nat → Option JObj := fun _ => j

/-- C2: the spec says an `AllocationAck` with a failure code is fatal — close
the transport and signal the Reconnector.  In the source the handler does
`raise RuntimeError("allocation failed")` (client.py:308), but the dispatch
wrapper's bare `except: pass` (client.py:292-293) swallows it: feeding a
complete `AllocationAck` frame whose payload parses to `{"code": 500, ...}`
leaves the session state exactly as it was — `_is_closing` is still `False`,
nothing is signalled, and the read loop keeps running.  The success half of the
claim does hold: a `code = 200` ack sets `_is_allocated`. -/
theorem c2_allocation_failure_swallowed :
    MyTurnClient.process
        (parseConst (some ⟨some 500, some [], none, none⟩)) (fun _ => none)
        ⟨false, false, [], []⟩ (Head.write ⟨2, 1, 0⟩) =
      ⟨false, false, [], []⟩ ∧
    (MyTurnClient.process
        (parseConst (some ⟨some 200, some [], none, none⟩)) (fun _ => none)
        ⟨false, false, [], []⟩ (Head.write ⟨2, 1, 0⟩)).is_allocated = true := by
  decide

/-- Reading back a written header recovers the fields, for in-range values. -/
theorem Head.read_write (h : Head) (rest : List Nat)
    (hc : h.command < 256) (hs : h.sequence < 65536) (hl : h.payload_len < 65536) :
    Head.read (Head.write h ++ rest) = h := by
  cases h with
  | mk c s l =>
    simp only [Head.write, Head.read, List.cons_append, List.nil_append,
      Head.mk.injEq] at hc hs hl ⊢
    refine ⟨by omega, by omega, by omega⟩

/-- The framing loop leaves an empty buffer untouched, whatever the fuel. -/
theorem processFramesAux_nil (fuel : Nat) : processFramesAux fuel [] = ([], []) := by
  cases fuel with
  | zero => rfl
  | succ n => simp [processFramesAux, Head.size]

/-- A buffer that is exactly one well-formed encoded frame decodes, under any
sufficient fuel, to that one frame with nothing left over: the byte count
matches the comparison at client.py:283 with equality, so the loop slices the
full payload and deletes every byte. -/
theorem processFramesAux_single (fuel : Nat) (h : Head) (payload : List Nat)
    (hc : h.command < 256) (hs : h.sequence < 65536)
    (hl : h.payload_len = payload.length) (hp : payload.length < 65536) :
    processFramesAux (fuel + 1) (Head.write h ++ payload) = ([(h, payload)], []) := by
  have hlen : (Head.write h ++ payload).length = payload.length + 6 := by
    simp [Head.write]
  have hread : Head.read (Head.write h ++ payload) = h :=
    Head.read_write h payload hc hs (hl ▸ hp)
  have hhead : ¬ (Head.write h ++ payload).headI ≠ Head.SYNC_BYTE := by
    simp [Head.write]
  have hdrop : (Head.write h ++ payload).drop Head.size = payload := by
    simp only [Head.write, List.cons_append, List.nil_append]
    rfl
  have hrest : (Head.write h ++ payload).drop (h.payload_len + Head.size) = [] := by
    rw [Nat.add_comm, ← List.drop_drop, hdrop, hl, List.drop_length]
  simp only [processFramesAux]
  rw [if_neg (by simp only [hlen, Head.size]; omega), if_neg hhead, hread,
    if_neg (by simp only [hlen, Head.size, hl]; omega), hrest, processFramesAux_nil,
    hdrop, hl, List.take_length]

/-- C7: resync — for any K ≥ 0 non-sentinel garbage bytes prepended to one
complete well-formed frame, the decoder drops the garbage one byte at a time
(client.py:278-280), then decodes exactly that frame unchanged and consumes the
whole buffer, i.e. exactly K + frame_size bytes. -/
theorem c7_resync_consumes_garbage_and_frame (g : List Nat) (h : Head) (payload : List Nat)
    (hg : ∀ b ∈ g, b ≠ Head.SYNC_BYTE)
    (hc : h.command < 256) (hs : h.sequence < 65536)
    (hl : h.payload_len = payload.length) (hp : payload.length < 65536) :
    processFrames (g ++ (Head.write h ++ payload)) = ([(h, payload)], []) := by
  induction g with
  | nil =>
    have hlen : (Head.write h ++ payload).length = payload.length + 5 + 1 := by
      simp [Head.write]
    rw [List.nil_append, processFrames, hlen,
      processFramesAux_single (payload.length + 5) h payload hc hs hl hp]
  | cons b g ih =>
    have hb : b ≠ Head.SYNC_BYTE := hg b (by simp)
    have hglen : 6 ≤ (g ++ (Head.write h ++ payload)).length := by
      simp [Head.write]
      omega
    have ih2 := ih (fun x hx => hg x (by simp [hx]))
    rw [processFrames] at ih2 ⊢
    rw [List.cons_append, List.length_cons]
    simp only [processFramesAux]
    rw [if_neg (by simp only [List.length_cons, Head.size]; omega),
      if_pos (by simpa using hb), List.tail_cons]
    exact ih2

/-- C7 witness: Scenario D shape — one garbage byte `0xFF` before a frame. -/
theorem c7_resync_witness :
    processFrames ([255] ++ (Head.write ⟨2, 1, 1⟩ ++ [65])) = ([(⟨2, 1, 1⟩, [65])], []) :=
  c7_resync_consumes_garbage_and_frame [255] ⟨2, 1, 1⟩ [65]
    (by decide) (by decide) (by decide) (by decide) (by decide)

/-- A buffer holding exactly one well-formed frame decodes to that frame. -/
theorem processFrames_single (h : Head) (payload : List Nat)
    (hc : h.command < 256) (hs : h.sequence < 65536)
    (hl : h.payload_len = payload.length) (hp : payload.length < 65536) :
    processFrames (Head.write h ++ payload) = ([(h, payload)], []) := by
  have hlen : (Head.write h ++ payload).length = payload.length + 5 + 1 := by
    simp [Head.write]
  rw [processFrames, hlen, processFramesAux_single (payload.length + 5) h payload hc hs hl hp]

/-- `MyTurnClient._process` on an empty reassembly buffer fed exactly one
well-formed frame: decode it, dispatch it once, and leave the buffer empty. -/
theorem ctrlProcess_single_frame (parse : List Nat → Option JObj)
    (splitAddr : List Nat → Option (List Nat × Nat))
    (s : CtrlState) (h : Head) (payload : List Nat)
    (hbuf : s.buf = []) (hc : h.command < 256) (hs : h.sequence < 65536)
    (hl : h.payload_len = payload.length) (hp : payload.length < 65536) :
    MyTurnClient.process parse splitAddr s (Head.write h ++ payload) =
      { MyTurnClient.dispatch parse splitAddr s (h, payload) with buf := [] } := by
  unfold MyTurnClient.process
  rw [hbuf, List.nil_append, processFrames_single h payload hc hs hl hp]
  rfl

/-- C6: a `ConnectionAttamp` whose parsed payload lacks `connection_id` or
`data_address` raises `RuntimeError` (client.py:320-321), which the per-frame
`except: pass` of `_process` (client.py:292-293) catches after the frame's
bytes were decoded; the `del buf[...]` at client.py:295 runs regardless, so the
frame is consumed, the Control Session state is untouched (`_is_closing` stays
`False`: the session is not terminated), and a subsequent well-formed frame —
here a successful `AllocationAck` — is dispatched normally. -/
theorem c6_bad_connection_attamp_isolated (parse : List Nat → Option JObj)
    (splitAddr : List Nat → Option (List Nat × Nat))
    (s : CtrlState) (h : Head) (payload : List Nat) (j : JObj)
    (hbuf : s.buf = [])
    (hcmd : h.command = 5) (hs : h.sequence < 65536)
    (hl : h.payload_len = payload.length) (hp : payload.length < 65536)
    (hparse : parse payload = some j)
    (hmiss : j.connection_id = none ∨ j.data_address = none) :
    MyTurnClient.process parse splitAddr s (Head.write h ++ payload) = s ∧
    ∀ (h2 : Head) (p2 : List Nat) (j2 : JObj),
      h2.command = 2 → h2.sequence < 65536 → h2.payload_len = p2.length →
      p2.length < 65536 → parse p2 = some j2 → j2.code = some 200 →
      j2.relay_address.isSome = true →
      (MyTurnClient.process parse splitAddr s (Head.write h2 ++ p2)).is_allocated = true := by
  constructor
  · rw [ctrlProcess_single_frame parse splitAddr s h payload hbuf (by omega) hs hl hp]
    have hd : MyTurnClient.dispatch parse splitAddr s (h, payload) = s := by
      obtain ⟨jc, jr, jcid, jda⟩ := j
      unfold MyTurnClient.dispatch MyTurnClient.process_ConnectionAttamp
      simp only [hcmd, Command.ofNat?, hparse]
      rcases hmiss with hm | hm <;> simp_all
    rw [hd]
    cases s with
    | mk a b c d => simp_all
  · intro h2 p2 j2 hcmd2 hs2 hl2 hp2 hparse2 hcode2 hra2
    rw [ctrlProcess_single_frame parse splitAddr s h2 p2 hbuf (by omega) hs2 hl2 hp2]
    obtain ⟨ra, hra⟩ := Option.isSome_iff_exists.mp hra2
    obtain ⟨j2c, j2r, j2cid, j2da⟩ := j2
    unfold MyTurnClient.dispatch MyTurnClient.process_AllocationAck
    simp only [hcmd2, Command.ofNat?, hparse2]
    simp_all

/-- C6 witness: a concrete Control Session processes a `ConnectionAttamp` frame
with an empty JSON payload (both fields missing) without terminating, then
allocates normally from a following `AllocationAck{code:200}` frame. -/
theorem c6_witness :
    MyTurnClient.process
        (fun p => if p = [] then some ⟨none, none, none, none⟩
                  else some ⟨some 200, some [], none, none⟩) (fun _ => none)
        ⟨false, false, [], []⟩ (Head.write ⟨5, 1, 0⟩ ++ []) =
      ⟨false, false, [], []⟩ ∧
    (MyTurnClient.process
        (fun p => if p = [] then some ⟨none, none, none, none⟩
                  else some ⟨some 200, some [], none, none⟩) (fun _ => none)
        ⟨false, false, [], []⟩ (Head.write ⟨2, 1, 1⟩ ++ [48])).is_allocated = true := by
  have hc6 := c6_bad_connection_attamp_isolated
    (fun p => if p = [] then some ⟨none, none, none, none⟩
              else some ⟨some 200, some [], none, none⟩) (fun _ => none)
    ⟨false, false, [], []⟩ ⟨5, 1, 0⟩ [] ⟨none, none, none, none⟩
    rfl rfl (by decide) (by decide) (by decide) (by decide) (Or.inl rfl)
  exact ⟨hc6.1, hc6.2 ⟨2, 1, 1⟩ [48] ⟨some 200, some [], none, none⟩
    rfl (by decide) (by decide) (by decide) (by decide) rfl rfl⟩

/-- If the framing loop emitted at least one frame, it consumed the entire
buffer: the source only processes a frame when `payload_len + Head.size() >=
len(buf)` (the inverted comparison at client.py:124/283), and then deletes
that many bytes, so nothing can remain. -/
theorem processFramesAux_ne_nil (fuel : Nat) : ∀ buf : List Nat,
    (processFramesAux fuel buf).1 ≠ [] → (processFramesAux fuel buf).2 = [] := by
  induction fuel with
  | zero => intro buf h; simp [processFramesAux] at h
  | succ n ih =>
    intro buf hne
    simp only [processFramesAux] at hne ⊢
    by_cases h1 : buf.length < Head.size
    · simp [h1] at hne
    · by_cases h2 : buf.headI ≠ Head.SYNC_BYTE
      · rw [if_neg h1, if_pos h2] at hne ⊢
        exact ih _ hne
      · rw [if_neg h1, if_neg h2] at hne ⊢
        by_cases h3 : (Head.read buf).payload_len + Head.size < buf.length
        · simp [h3] at hne
        · rw [if_neg h3] at hne ⊢
          have hrest : buf.drop ((Head.read buf).payload_len + Head.size) = [] :=
            List.drop_eq_nil_of_le (by omega)
          rw [hrest, processFramesAux_nil]

/-- The mutable state of a `BaseDataClient` as seen by its `_process` path:
`_is_binded` and `_buf` from `__init__` (client.py:86-87), plus the chunks
handed (in order) to the subclass hook `process_binded_data` — the bytes
forwarded towards the Local Bridge. -/
structure DataState where
  is_binded : Bool
  buf : List Nat
  forwarded : List (List Nat)
  deriving DecidableEq, Repr

/-- `BaseDataClient.process_ConnectionBindAck` (client.py:167-179): its own
`try` catches `json.loads` failures and a missing `code` key; only
`code == 200` sets `_is_binded = True`.  It sends nothing and closes nothing;
returned is the new `_is_binded`. -/
def BaseDataClient.process_ConnectionBindAck (j : Option JObj) (b : Bool) : Bool :=
  match j with
  | none => b
  | some o =>
    match o.code with
    | none => b
    | some c => if c = 200 then true else b

/-- The per-frame dispatch of `BaseDataClient._process` (client.py:129-138):
the only `process_<Command>` method the class defines is
`process_ConnectionBindAck`; every other command ends in the bare `except:
pass` (unknown ordinal or `getattr` failure) and changes nothing. -/
def BaseDataClient.dispatchFrame (parse : List Nat → Option JObj)
    (b : Bool) (f : FrameEvent) : Bool :=
  match Command.ofNat? f.1.command with
  | some Command.ConnectionBindAck => BaseDataClient.process_ConnectionBindAck (parse f.2) b
  | _ => b

/-- `BaseDataClient._process(buf)` (client.py:99-140).  Pre-bind: extend `_buf`
and run the shared framing loop.  Post-bind (`_is_binded` true): if `_buf` is
non-empty, forward `_buf` to `process_binded_data` and clear it — the newly
read chunk is dropped in that branch, exactly as in the source — otherwise
forward the chunk itself. -/
def BaseDataClient.process (parse : List Nat → Option JObj)
    (s : DataState) (chunk : List Nat) : DataState :=
  if s.is_binded then
    if 0 < s.buf.length then
      { s with forwarded := s.forwarded ++ [s.buf], buf := [] }
    else
      { s with forwarded := s.forwarded ++ [chunk] }
  else
    let r := processFrames (s.buf ++ chunk)
    let b := r.1.foldl (BaseDataClient.dispatchFrame parse) s.is_binded
    { s with is_binded := b, buf := r.2 }

/-- A fresh data session: `_is_binded = False`, empty buffer, nothing
forwarded (client.py:86-87). -/
def BaseDataClient.init : DataState := ⟨false, [], []⟩

/-- Reachability invariant of a data session: whenever `_is_binded` is set the
reassembly buffer is empty — becoming bound requires the framing loop to have
emitted a frame, which (client.py:124,140) consumes the whole buffer. -/
def DataInv (s : DataState) : Prop := s.is_binded = true → s.buf = []

/-- C3: the mode switch.  A fresh session satisfies the invariant, every
`_process` call preserves it, and from any bound reachable state a `_process`
call forwards the received chunk verbatim to the Local Bridge hook — no byte
is re-interpreted as a frame and none is dropped.  The buffer is provably
empty at the moment of the switch, so the spec's "flush the reassembly buffer
first" case never has anything to flush. -/
theorem c3_post_bind_forwarding (parse : List Nat → Option JObj)
    (s : DataState) (chunk : List Nat) (hInv : DataInv s) :
    DataInv BaseDataClient.init ∧
    DataInv (BaseDataClient.process parse s chunk) ∧
    (s.is_binded = true →
      BaseDataClient.process parse s chunk =
        { s with forwarded := s.forwarded ++ [chunk] }) := by
  refine ⟨fun _ => rfl, ?_, ?_⟩
  · by_cases hb : s.is_binded = true
    · have hbuf := hInv hb
      unfold BaseDataClient.process
      rw [if_pos hb, if_neg (by rw [hbuf]; simp)]
      intro _
      simpa using hbuf
    · unfold BaseDataClient.process
      rw [if_neg hb]
      intro hbind
      simp only at hbind
      have hb0 : s.is_binded = false := by simpa using hb
      rw [hb0] at hbind
      have hev : (processFrames (s.buf ++ chunk)).1 ≠ [] := by
        intro hnil
        rw [hnil] at hbind
        simp at hbind
      exact processFramesAux_ne_nil (s.buf ++ chunk).length (s.buf ++ chunk) hev
  · intro hb
    have hbuf := hInv hb
    unfold BaseDataClient.process
    rw [if_pos hb, if_neg (by rw [hbuf]; simp)]

/-- C3 witness: a bound session with an empty buffer forwards a chunk that even
starts with the sentinel byte, verbatim, without decoding it as a frame. -/
theorem c3_witness :
    DataInv BaseDataClient.init ∧
    DataInv (BaseDataClient.process (fun _ => none) ⟨true, [], []⟩ [170, 1, 2]) ∧
    (true = true →
      BaseDataClient.process (fun _ => none) ⟨true, [], []⟩ [170, 1, 2] =
        ⟨true, [], [[170, 1, 2]]⟩) :=
  c3_post_bind_forwarding (fun _ => none) ⟨true, [], []⟩ [170, 1, 2] (fun _ => rfl)

/-- The slice of a Data Session's state that `process_ConnectionBindAck` could
touch: the bind flag and the transport's closing flag. -/
structure BindView where
  is_binded : Bool
  is_closing : Bool
  deriving DecidableEq, Repr

/-- One `process_ConnectionBindAck` dispatch as a state transition together
with the list of messages it writes to the transport: the handler
(client.py:167-179) performs no `send`/`_send_msg` and no `close()`, so the
output list is always empty and `_is_closing` is never touched. -/
def BaseDataClient.bindAckStep (j : Option JObj) (s : BindView) :
    BindView × List (List Nat) :=
  ({ s with is_binded := BaseDataClient.process_ConnectionBindAck j s.is_binded }, [])

/-- C8: a `ConnectionBindAck` carrying a failure code, a payload without a
`code` key, or an unparsable payload leaves the Data Session exactly as it was:
`_is_binded` stays `False` if it was, no `ConnectionBind` is re-sent, and the
transport is not closed — the session is left open but inert. -/
theorem c8_bind_failure_inert (j : Option JObj) (s : BindView)
    (hfail : ∀ o, j = some o → o.code ≠ some 200) :
    BaseDataClient.bindAckStep j s = (s, []) := by
  cases j with
  | none => rfl
  | some o =>
    cases hoc : o.code with
    | none =>
      simp [BaseDataClient.bindAckStep, BaseDataClient.process_ConnectionBindAck, hoc]
    | some c =>
      have hc : ¬ c = 200 := fun h => hfail o rfl (by rw [hoc, h])
      simp [BaseDataClient.bindAckStep, BaseDataClient.process_ConnectionBindAck, hoc, hc]

/-- C8 witness: a failure ack `{"code": 500}` on an unbound session. -/
theorem c8_witness :
    BaseDataClient.bindAckStep (some ⟨some 500, none, none, none⟩) ⟨false, false⟩ =
      (⟨false, false⟩, []) :=
  c8_bind_failure_inert (some ⟨some 500, none, none, none⟩) ⟨false, false⟩
    (fun o ho => by cases ho; decide)

/-- A `LocalClient` (Local Bridge) as the Data Session sees it: its writer,
`None` until `connect()` has succeeded (client.py:20-21,29). -/
structure LCState where
  w : Option Unit
  deriving DecidableEq, Repr

/-- The state of a `LocalDataClient` touched by its bind/relay path:
`_is_binded`, the reassembly buffer, and `_local_client`
(`None` from `__init__`, client.py:225). -/
structure LDCState where
  is_binded : Bool
  buf : List Nat
  local_client : Option LCState
  deriving DecidableEq, Repr

/-- `LocalDataClient.process_ConnectionBindAck` (client.py:227-237): run the
base handler, then — if now bound — assign `self._local_client = LocalClient(...)`
FIRST and only then `yield from self._local_client.connect()`; a connect
failure is caught and printed, leaving `_local_client` set to a bridge whose
writer is still `None`.  `connectOk` is the outcome of the external
`asyncio.open_connection`. -/
def LocalDataClient.process_ConnectionBindAck (j : Option JObj) (connectOk : Bool)
    (s : LDCState) : LDCState :=
  let b := BaseDataClient.process_ConnectionBindAck j s.is_binded
  if b then
    { s with is_binded := b,
             local_client := some ⟨if connectOk then some () else none⟩ }
  else
    { s with is_binded := b }

/-- `BaseTcpClient.send` as called on the bridge (client.py:70-71):
`self.w.write(buf)` — an `AttributeError` if the writer is still `None`. -/
def LocalClient.send (lc : LCState) (buf : List Nat) : Except Unit (List Nat) :=
  match lc.w with
  | some _ => .ok buf
  | none => .error ()

/-- `LocalDataClient.process_binded_data` (client.py:239-241): `if
self._local_client:` is Python truthiness — `False` only for `None`, `True`
for a constructed bridge even when its `connect()` failed — then
`self._local_client.send(buf)`.  Returns the chunks written to the bridge. -/
def LocalDataClient.process_binded_data (s : LDCState) (buf : List Nat) :
    Except Unit (List (List Nat)) :=
  match s.local_client with
  | none => .ok []
  | some lc =>
    match LocalClient.send lc buf with
    | .ok b => .ok [b]
    | .error e => .error e

/-- The post-bind branch of `BaseDataClient._process` (client.py:101-111) as a
`LocalDataClient` runs it.  Unlike the frame-dispatch branch it has NO
`try/except`, so an exception in `process_binded_data` propagates out of
`_process` and (through `yield from r` at client.py:50-52) out of the read
loop. -/
def LocalDataClient.bindedBranch (s : LDCState) (chunk : List Nat) :
    Except Unit (LDCState × List (List Nat)) :=
  if 0 < s.buf.length then
    match LocalDataClient.process_binded_data s s.buf with
    | .ok sent => .ok ({ s with buf := [] }, sent)
    | .error e => .error e
  else
    match LocalDataClient.process_binded_data s chunk with
    | .ok sent => .ok (s, sent)
    | .error e => .error e

/-- C4: after a successful bind (`code = 200`) whose Local Bridge connect
failed, the session is indeed still bound — but the first relay chunk is NOT
silently discarded: `_local_client` was assigned before the failed `connect()`,
so the truthiness guard passes, `send` hits `self.w = None`, and the resulting
`AttributeError` escapes the uncaught post-bind branch of `_process` — i.e. it
escapes the session's read loop, contradicting the claim. -/
theorem c4_bridge_failure_raises :
    (LocalDataClient.process_ConnectionBindAck (some ⟨some 200, none, none, none⟩)
        false ⟨false, [], none⟩).is_binded = true ∧
    LocalDataClient.bindedBranch
        (LocalDataClient.process_ConnectionBindAck (some ⟨some 200, none, none, none⟩)
          false ⟨false, [], none⟩) [120] = .error () :=
  ⟨rfl, rfl⟩

/-- `BaseDataClient.MAX_SEQ` exactly as written in the source (client.py:80):
`2*16`, i.e. 32 — not `2**16`. -/
def BaseDataClient.MAX_SEQ : Nat := 2 * 16

/-- `MyTurnClient.MAX_SEQ` (client.py:250): `2**16` = 65536. -/
def MyTurnClient.MAX_SEQ : Nat := 2 ^ 16

/-- `_gen_seq` (client.py:161-165 and 347-351, identical code): increment
`_seq`, reset to 0 on reaching `MAX_SEQ`; the stored value is also returned. -/
def gen_seq (max_seq seq : Nat) : Nat :=
  if max_seq ≤ seq + 1 then 0 else seq + 1

/-- The value returned by the n-th `_gen_seq` call of a sender whose `_seq`
started at 0 (client.py:85,258). -/
def seqAfter (max_seq : Nat) : Nat → Nat
  | 0 => 0
  | n + 1 => gen_seq max_seq (seqAfter max_seq n)

/-- C5: the spec says every sender's sequence numbers follow n mod 65536.  The
Control Session's do (its 32nd value is 32), but `BaseDataClient.MAX_SEQ` is
written `2*16` (client.py:80), so every Data Session wraps at 32: its 32nd
generated value is 0, where n mod 65536 = 32. -/
theorem c5_data_session_wraps_at_32 :
    BaseDataClient.MAX_SEQ = 32 ∧
    seqAfter BaseDataClient.MAX_SEQ 32 = 0 ∧
    (32 : Nat) % 65536 = 32 ∧
    seqAfter MyTurnClient.MAX_SEQ 32 = 32 := by
  decide

/-- The transport fields `BaseTcpClient.close` reads (client.py:19-22): the
closing flag, and whether a writer and a read task exist. -/
structure TcpState where
  is_closing : Bool
  w : Option Unit
  read_task : Option Unit
  deriving DecidableEq, Repr

/-- The externally visible actions `close()` can perform. -/
inductive CloseAction where
  | closeWriter
  | cancelTask
  deriving DecidableEq, Repr

/-- `BaseTcpClient.close` (client.py:33-41): return immediately if already
closing; otherwise set `_is_closing`, close the writer if any, cancel the read
task if any. -/
def BaseTcpClient.close (s : TcpState) : TcpState × List CloseAction :=
  if s.is_closing then (s, [])
  else
    ({ s with is_closing := true },
      (if s.w.isSome then [CloseAction.closeWriter] else []) ++
      (if s.read_task.isSome then [CloseAction.cancelTask] else []))

/-- C9: `close()` is idempotent.  On a live session the first call sets
`_is_closing`, closes the writer and cancels the read task; a second call on
the resulting state (indeed on the result of any first call) changes nothing
and performs no action. -/
theorem c9_close_idempotent (s : TcpState) :
    BaseTcpClient.close (BaseTcpClient.close s).1 = ((BaseTcpClient.close s).1, []) ∧
    (s.is_closing = false → s.w.isSome = true → s.read_task.isSome = true →
      BaseTcpClient.close s =
        (⟨true, s.w, s.read_task⟩, [CloseAction.closeWriter, CloseAction.cancelTask])) := by
  constructor
  · by_cases hc : s.is_closing
    · simp [BaseTcpClient.close, hc]
    · simp [BaseTcpClient.close, hc]
  · intro hc hw ht
    simp [BaseTcpClient.close, hc, hw, ht]

/-- C9 witness: a live session with a writer and a read task. -/
theorem c9_witness :
    BaseTcpClient.close (BaseTcpClient.close ⟨false, some (), some ()⟩).1 =
      ((BaseTcpClient.close ⟨false, some (), some ()⟩).1, []) ∧
    BaseTcpClient.close ⟨false, some (), some ()⟩ =
      (⟨true, some (), some ()⟩, [CloseAction.closeWriter, CloseAction.cancelTask]) :=
  ⟨(c9_close_idempotent ⟨false, some (), some ()⟩).1,
   (c9_close_idempotent ⟨false, some (), some ()⟩).2 rfl rfl rfl⟩

/-- The Reconnector's state: `_client` (client.py:359), present or absent. -/
structure ReconnState where
  client : Option Unit
  deriving DecidableEq, Repr

/-- How many `MyTurnClient` constructions `ForeverMyTurnClient.run`'s retry
loop performs, given the success/failure outcome of each connect attempt
(client.py:369-379): each iteration constructs one client first, then awaits
the connect; success breaks the loop, failure closes and retries.  An empty
outcome list cuts execution right after the first construction. -/
def ForeverMyTurnClient.runAttempts : List Bool → Nat
  | [] => 1
  | ok :: rest => if ok then 1 else 1 + ForeverMyTurnClient.runAttempts rest

/-- `ForeverMyTurnClient.run` (client.py:364-379): `if self._client: return` —
no construction at all; otherwise the loop leaves `_client` set (to the latest
constructed client — it is never reset to `None` here, even on failure).
Returns the new state and the number of clients constructed. -/
def ForeverMyTurnClient.run (s : ReconnState) (outcomes : List Bool) :
    ReconnState × Nat :=
  if s.client.isSome then (s, 0)
  else (⟨some ()⟩, ForeverMyTurnClient.runAttempts outcomes)

/-- `ForeverMyTurnClient.on_client_disconnected` (client.py:382-384): clear
`_client` (and schedule a fresh `start` after 5 s, which is external timing). -/
def ForeverMyTurnClient.on_client_disconnected (_s : ReconnState) : ReconnState :=
  ⟨none⟩

/-- C10: at most one live control session.  `run` on a state whose `_client` is
set returns it unchanged and constructs nothing; after any `run` call `_client`
is always set (so `run` never clears it, whatever the connect outcomes); only
`on_client_disconnected` resets `_client` to `None`. -/
theorem c10_single_client (s : ReconnState) (outcomes : List Bool) :
    (s.client.isSome = true → ForeverMyTurnClient.run s outcomes = (s, 0)) ∧
    (ForeverMyTurnClient.run s outcomes).1.client.isSome = true ∧
    ForeverMyTurnClient.on_client_disconnected s = ⟨none⟩ := by
  refine ⟨fun h => by simp [ForeverMyTurnClient.run, h], ?_, rfl⟩
  by_cases h : s.client.isSome
  · simp [ForeverMyTurnClient.run, h]
  · simp [ForeverMyTurnClient.run, h]

/-- C10 witness: with a live client, `run` is a no-op constructing nothing. -/
theorem c10_witness :
    ForeverMyTurnClient.run ⟨some ()⟩ [false, true] = (⟨some ()⟩, 0) ∧
    (ForeverMyTurnClient.run ⟨some ()⟩ [false, true]).1.client.isSome = true ∧
    ForeverMyTurnClient.on_client_disconnected ⟨some ()⟩ = ⟨none⟩ :=
  ⟨(c10_single_client ⟨some ()⟩ [false, true]).1 rfl,
   (c10_single_client ⟨some ()⟩ [false, true]).2.1,
   (c10_single_client ⟨some ()⟩ [false, true]).2.2⟩
